import Mathlib

/-!
Verification of the ADW orchestration core of the ACEngineer repository.

The Python modules under `agentics/adws/adw_modules/` are shallowly embedded
below: pure fragments become Lean functions, the per-task persistent record
becomes an explicit `StateData` structure, filesystem effects are modelled as
explicit operation lists, and the process environment (the salted builtin
`hash`, the on-disk state map, the filesystem and git oracles) is passed as an
explicit record.  Machine details that the claims do not touch (timestamps,
float rounding of `progress`, log payloads) are carried as plain strings and
rationals.
-/

namespace ACE

/-! ### Workflow status (state_manager.py / adw_state.py, class WorkflowStatus) -/

/-- `WorkflowStatus` enumeration; `value` is the string stored in the record. -/
inductive WorkflowStatus where
  | initialized
  | pending
  | executing
  | completed
  | failed
  | cancelled
deriving DecidableEq

/-- The `.value` attribute of the Python enum member. -/
def WorkflowStatus.value : WorkflowStatus → String
  | .initialized => "initialized"
  | .pending => "pending"
  | .executing => "executing"
  | .completed => "completed"
  | .failed => "failed"
  | .cancelled => "cancelled"

/-! ### The per-task durable record (state_manager.py, dataclass StateData)

`progress` is a Python float; it is modelled as a rational.  Dict-valued
fields are modelled as association lists; they are never inspected by the
operations under study. -/

/-- One entry of the `logs` list (see `StateManager.add_log`). -/
structure LogEntry where
  timestamp : String
  level : String
  stage : String
  message : String
deriving DecidableEq

/-- The durable record for one task, mirroring dataclass `StateData` with the
`__post_init__` defaults already applied (so list fields are genuine lists). -/
structure StateData where
  adw_id : String
  title : String
  description : String
  type : String := "feature"
  priority : String := "medium"
  stages : List String := ["plan", "implement"]
  workflow_status : String := WorkflowStatus.initialized.value
  current_stage : String := ""
  completed_stages : List String := []
  failed_stages : List String := []
  current_action : String := ""
  progress : ℚ := 0
  created_at : String := ""
  updated_at : String := ""
  project_context : List (String × String) := []
  execution_mode : String := "automatic"
  triggered_at : String := ""
  kanban_integration : Bool := true
  trigger_source : String := "kanban_ui"
  ui_metadata : List (String × String) := []
  logs : List LogEntry := []
  metrics : List (String × String) := []
  error_message : Option String := none
deriving DecidableEq

namespace StateManager

/-- `StateManager.save_state`: under the per-task lock the record's
`updated_at` is refreshed and the record is written out.  The in-memory
result of the mutation is the record itself; the write is modelled
separately (see `save_state_ops`). -/
def save_state (s : StateData) (now : String) : StateData :=
  { s with updated_at := now }

/-- `StateManager.update_status` (load → mutate → save collapsed onto the
loaded record).  Python truthiness: an empty `current_action` and an empty or
absent `error_message` leave the old field in place. -/
def update_status (s : StateData) (status : WorkflowStatus)
    (current_action : String) (error_message : Option String)
    (now : String) : StateData :=
  let s := { s with workflow_status := status.value }
  let s := if current_action ≠ "" then { s with current_action := current_action } else s
  let s :=
    match error_message with
    | some m => if m ≠ "" then { s with error_message := some m } else s
    | none => s
  save_state s now

/-- `StateManager.update_stage`. -/
def update_stage (s : StateData) (stage : String) (progress : Option ℚ)
    (now : String) : StateData :=
  let s := { s with current_stage := stage,
                    workflow_status := WorkflowStatus.executing.value }
  let s :=
    match progress with
    | some p => { s with progress := p }
    | none => s
  save_state s now

/-- `StateManager.complete_stage`: append the stage to `completed_stages` if
absent, drop it from `failed_stages`, recompute `progress`, and flip the
record to `completed` exactly when the completed count reaches the declared
stage count. -/
def complete_stage (s : StateData) (stage : String) (now : String) : StateData :=
  let completed :=
    if stage ∈ s.completed_stages then s.completed_stages
    else s.completed_stages ++ [stage]
  let failed := s.failed_stages.erase stage
  let total := s.stages.length
  let s := { s with completed_stages := completed,
                    failed_stages := failed,
                    progress := ((completed.length : ℚ) / (total : ℚ)) * 100 }
  let s :=
    if completed.length = total then
      { s with workflow_status := WorkflowStatus.completed.value,
               current_stage := "completed",
               current_action := "Task execution completed" }
    else s
  save_state s now

/-- `StateManager.fail_stage`: append the stage to `failed_stages` if absent,
drop it from `completed_stages`, set the failed status and the error
message. -/
def fail_stage (s : StateData) (stage : String) (error_message : String)
    (now : String) : StateData :=
  let failed :=
    if stage ∈ s.failed_stages then s.failed_stages
    else s.failed_stages ++ [stage]
  let completed := s.completed_stages.erase stage
  save_state
    { s with failed_stages := failed,
             completed_stages := completed,
             workflow_status := WorkflowStatus.failed.value,
             error_message := some error_message } now

/-- `StateManager.add_log`. -/
def add_log (s : StateData) (level stage message timestamp now : String) :
    StateData :=
  save_state
    { s with logs := s.logs ++ [⟨timestamp, level, stage, message⟩] } now

end StateManager

/-! ### TAC-7 state record (adw_state.py, class ADWStateData) -/

/-- The per-task record managed by `ADWState` (pydantic model `ADWStateData`);
only the fields the operations under study read or write are carried. -/
structure ADWStateData where
  adw_id : String
  issue_number : Option Nat := none
  branch_name : Option String := none
  plan_file : Option String := none
  worktree_path : Option String := none
  backend_port : Option Nat := none
  frontend_port : Option Nat := none
  model_set : String := "default"
  workflow_status : String := WorkflowStatus.initialized.value
  current_phase : String := ""
  completed_phases : List String := []
  failed_phases : List String := []
  error_message : Option String := none
deriving DecidableEq

/-! ### The process environment for `ADWState`

`allocate_ports` calls the Python builtin `hash` on the task id; since
Python 3.3 the builtin string hash is salted with a per-process random seed
(`PYTHONHASHSEED`), so the hash function is an arbitrary parameter of the
process, fixed for its lifetime.  `pyHash id` stands for `abs(hash(id))`.
`states` is the on-disk map of persisted task records (what `load_state`
would return), and the remaining fields are the filesystem and git oracles
read by `validate_worktree`. -/
structure ADWEnv where
  pyHash : String → Nat
  states : String → Option ADWStateData
  path_exists : String → Bool
  path_is_dir : String → Bool
  git_raises : Bool
  git_returncode_zero : Bool
  git_stdout_contains : String → Bool

namespace ADWState

/-- `ADWState.allocate_ports`: deterministic hash-modulo allocation,
`hash_value = abs(hash(adw_id)) % 15`, backend `9100 + hash_value`,
frontend `9200 + hash_value`.  Note that the live-task states in `env` are
never consulted. -/
def allocate_ports (env : ADWEnv) (adw_id : String) : Nat × Nat :=
  let hash_value := env.pyHash adw_id % 15
  (9100 + hash_value, 9200 + hash_value)

/-- Result record of `ADWState.validate_worktree`. -/
structure Validation where
  state_has_path : Bool
  directory_exists : Bool
  git_recognizes : Bool
  valid : Bool
deriving DecidableEq

/-- `ADWState.validate_worktree`: the three nested checks.  The dict starts
all-`False`; a missing state record returns it untouched; each check is only
attempted once the previous one passed; `valid` is the conjunction of the
three stored fields.  Python truthiness makes an empty `worktree_path`
falsy. -/
def validate_worktree (env : ADWEnv) (adw_id : String) : Validation :=
  match env.states adw_id with
  | none => ⟨false, false, false, false⟩
  | some st =>
    match st.worktree_path with
    | none => ⟨false, false, false, false⟩
    | some p =>
      if p = "" then ⟨false, false, false, false⟩
      else
        let directory_exists := env.path_exists p && env.path_is_dir p
        let git_recognizes :=
          directory_exists &&
            (!env.git_raises && env.git_returncode_zero && env.git_stdout_contains p)
        ⟨true, directory_exists, git_recognizes,
          true && directory_exists && git_recognizes⟩

/-- The worktree path named by the persisted state, when present and
non-empty (component check (a) of the spec, evaluated on its own). -/
def named_path (env : ADWEnv) (adw_id : String) : Option String :=
  match env.states adw_id with
  | none => none
  | some st =>
    match st.worktree_path with
    | none => none
    | some p => if p = "" then none else some p

/-- Component check (a): the persisted state names a worktree path. -/
def check_state_has_path (env : ADWEnv) (adw_id : String) : Bool :=
  (named_path env adw_id).isSome

/-- Component check (b): the named path exists as a directory on disk. -/
def check_directory_exists (env : ADWEnv) (adw_id : String) : Bool :=
  match named_path env adw_id with
  | none => false
  | some p => env.path_exists p && env.path_is_dir p

/-- Component check (c): `git worktree list` succeeds and its output contains
the named path. -/
def check_git_recognizes (env : ADWEnv) (adw_id : String) : Bool :=
  match named_path env adw_id with
  | none => false
  | some p => !env.git_raises && env.git_returncode_zero && env.git_stdout_contains p

end ADWState

/-! ### Stage execution with retry/backoff (task_processor.py) -/

namespace TaskProcessor

/-- The retry loop body of `TaskProcessor.execute_stage`:
`for attempt in range(max_retries + 1): if attempt > 0: time.sleep(2 ** attempt); ...`.
`outcome i` is the exit status of the i-th invocation of
`_execute_pipeline_script` (`true` = exit code 0); the function returns
`(success, attempts made, total time slept)` of the loop's trace. -/
def run_attempts (outcome : Nat → Bool) : List Nat → Bool × Nat × Nat
  | [] => (false, 0, 0)
  | i :: rest =>
    let wait := if 0 < i then 2 ^ i else 0
    if outcome i then (true, 1, wait)
    else
      let r := run_attempts outcome rest
      (r.1, r.2.1 + 1, r.2.2 + wait)

/-- `TaskProcessor.execute_stage`, restricted to its retry loop: the attempt
indices are `range(max_retries + 1)`. -/
def execute_stage (outcome : Nat → Bool) (max_retries : Nat) : Bool × Nat × Nat :=
  run_attempts outcome (List.range (max_retries + 1))

/-! ### Priority queue (task_processor.py, `queue_task` / `TaskPriority`) -/

/-- `TaskPriority` enum. -/
inductive TaskPriority where
  | low
  | medium
  | high
  | urgent
deriving DecidableEq

/-- The numeric `.value` of each priority level. -/
def TaskPriority.value : TaskPriority → Nat
  | .low => 1
  | .medium => 2
  | .high => 3
  | .urgent => 4

/-- One entry of `execution_queue`: `queue_task` puts
`(-priority.value, datetime.now(), task_data)`.  Submission time is a tick
count; the task payload is carried by its id. -/
structure QEntry where
  neg_priority : Int
  queued_at : Nat
  task_id : String
deriving DecidableEq

/-- The tuple built by `TaskProcessor.queue_task`. -/
def queue_entry (p : TaskPriority) (queued_at : Nat) (task_id : String) : QEntry :=
  ⟨-(p.value : Int), queued_at, task_id⟩

/-- `queue_task`: append the entry to the queue's backing store. -/
def queue_task (q : List QEntry) (p : TaskPriority) (queued_at : Nat)
    (task_id : String) : List QEntry :=
  q ++ [queue_entry p queued_at task_id]

/-- The tuple order `queue.PriorityQueue` pops by: lexicographic on
`(neg_priority, queued_at)` (ties beyond that are broken arbitrarily by the
heap; Python would compare the third component). -/
def entry_le (a b : QEntry) : Bool :=
  decide (a.neg_priority < b.neg_priority) ||
    (decide (a.neg_priority = b.neg_priority) && decide (a.queued_at ≤ b.queued_at))

/-- Strict version of `entry_le` on the compared key. -/
def entry_lt (a b : QEntry) : Bool :=
  decide (a.neg_priority < b.neg_priority) ||
    (decide (a.neg_priority = b.neg_priority) && decide (a.queued_at < b.queued_at))

/-- The order in which workers dequeue the queued entries: a min-heap
dispenses them in nondecreasing `entry_le` order. -/
def dequeue_order (q : List QEntry) : List QEntry :=
  q.mergeSort entry_le

end TaskProcessor

/-! ### File-trigger watcher (adw_orchestrator.py, `monitor_file_triggers`) -/

namespace Orchestrator

/-- What one examination of a trigger file's task-data file can yield:
`read_json_file` returns a falsy dict (`empty`), `TaskData(**d)` raises
(`invalid`), or a task is built (`valid`). -/
inductive TaskRead where
  | empty
  | invalid
  | valid (payload : String)
deriving DecidableEq

/-- One observation of a trigger file by the polling loop. -/
structure TriggerObs where
  name : String
  trigger_parse_ok : Bool
  task_file_exists : Bool
  task_read : TaskRead
deriving DecidableEq

/-- The watcher's in-process memory (`processed_triggers`) together with the
submissions it has made (`queue_task_execution` calls, tagged with the
trigger file name that caused them). -/
structure MonitorState where
  processed : List String
  submissions : List (String × String)
deriving DecidableEq

/-- The body of the scan loop for one trigger file: skip names already in
`processed_triggers`; a trigger json that fails to parse, a missing task
file, or a `TaskData` construction error leave the name unprocessed (it will
be examined again next poll); otherwise the name is marked processed, and a
submission happens exactly in the `valid` case.  (`queue_task_execution`
itself does not raise; the optional `unlink` of the trigger file may fail,
which only means the same name can be observed again.) -/
def monitor_step (st : MonitorState) (t : TriggerObs) : MonitorState :=
  if t.name ∈ st.processed then st
  else if t.trigger_parse_ok then
    if t.task_file_exists then
      match t.task_read with
      | .empty => { st with processed := st.processed ++ [t.name] }
      | .invalid => st
      | .valid d =>
        { processed := st.processed ++ [t.name],
          submissions := st.submissions ++ [(t.name, d)] }
    else st
  else st

/-- The whole watcher run within one process: the trigger files observed
across all polling iterations, in order, folded through the loop body. -/
def monitor_run (obs : List TriggerObs) : MonitorState :=
  obs.foldl monitor_step ⟨[], []⟩

end Orchestrator

/-! ### Persistence at the filesystem level (state_manager.py, `save_state`) -/

/-- Filesystem operations; file contents are byte (char) lists. -/
inductive FsOp where
  | mkdirp (path : String)
  | write (path : String) (content : List Char)
  | rename (src dst : String)
deriving DecidableEq

/-- Whether an operation is a rename. -/
def FsOp.isRenameOp : FsOp → Bool
  | .rename _ _ => true
  | _ => false

/-- `StateManager._get_state_file`: `agents_dir / adw_id / "state.json"`. -/
def task_dir (adw_id : String) : String := "agentics/agents/" ++ adw_id

/-- Path of the persisted record. -/
def state_file (adw_id : String) : String := task_dir adw_id ++ "/state.json"

/-- `StateManager.save_state` at the filesystem level: ensure the task
directory, then write the serialized record with
`open(state_file, 'w')` + `json.dump` — one in-place write to the target
(`payload` stands for the `json.dump` output).  No temporary file and no
rename appear. -/
def save_state_ops (adw_id : String) (payload : List Char) : List FsOp :=
  [FsOp.mkdirp (task_dir adw_id), FsOp.write (state_file adw_id) payload]

/-- A filesystem: path → file content. -/
def FileSys := String → Option (List Char)

/-- Effect of one completed operation. -/
def apply_op (fs : FileSys) : FsOp → FileSys
  | .mkdirp _ => fs
  | .write p c => fun q => if q = p then some c else fs q
  | .rename src dst => fun q =>
      if q = dst then fs src else if q = src then none else fs q

/-- Effect of a completed operation sequence. -/
def apply_ops (fs : FileSys) (ops : List FsOp) : FileSys :=
  ops.foldl apply_op fs

/-- Crash semantics: the first `k` operations complete, then the process is
killed `m` bytes into operation `k`.  An interrupted `write` leaves the
target truncated to the first `m` bytes of the new content
(`open(..., 'w')` truncates and then writes front to back); `mkdirp` and
`rename` are treated as atomic. -/
def apply_ops_crash (fs : FileSys) (ops : List FsOp) (k m : Nat) : FileSys :=
  let fs1 := apply_ops fs (ops.take k)
  match ops[k]? with
  | some (FsOp.write p c) => fun q => if q = p then some (c.take m) else fs1 q
  | _ => fs1

/-! ## Theorems -/

/-! ### C10 — port ranges and the fixed backend/frontend offset -/

/-- C10: for every process environment and task id, `allocate_ports` returns
a backend port in [9100, 9114], a frontend port in [9200, 9214], and the
frontend port is exactly the backend port plus 100 (both share the same
hash offset). -/
theorem C10_port_pair_coupling (env : ADWEnv) (adw_id : String) :
    9100 ≤ (ADWState.allocate_ports env adw_id).1 ∧
    (ADWState.allocate_ports env adw_id).1 ≤ 9114 ∧
    9200 ≤ (ADWState.allocate_ports env adw_id).2 ∧
    (ADWState.allocate_ports env adw_id).2 ≤ 9214 ∧
    (ADWState.allocate_ports env adw_id).2 =
      (ADWState.allocate_ports env adw_id).1 + 100 := by
  have h : env.pyHash adw_id % 15 < 15 := Nat.mod_lt _ (by norm_num)
  simp only [ADWState.allocate_ports]
  omega

/-! ### C6 — three-way worktree validation -/

/-- C6: the `valid` field of `validate_worktree` equals the conjunction of
exactly its three component checks — the persisted state names a worktree
path, that path is a directory on disk, and git's worktree listing contains
it — and when no state record exists all four fields are false. -/
theorem C6_three_way_validation (env : ADWEnv) (adw_id : String) :
    (ADWState.validate_worktree env adw_id).valid =
      (ADWState.check_state_has_path env adw_id &&
        ADWState.check_directory_exists env adw_id &&
        ADWState.check_git_recognizes env adw_id) ∧
    (env.states adw_id = none →
      ADWState.validate_worktree env adw_id = ⟨false, false, false, false⟩) := by
  constructor
  · simp only [ADWState.validate_worktree, ADWState.check_state_has_path,
      ADWState.check_directory_exists, ADWState.check_git_recognizes,
      ADWState.named_path]
    cases env.states adw_id with
    | none => rfl
    | some st =>
      dsimp only
      cases st.worktree_path with
      | none => rfl
      | some p =>
        dsimp only
        by_cases hp : p = ""
        · simp [hp]
        · simp only [if_neg hp, Option.isSome_some, Bool.true_and]
          cases env.path_exists p && env.path_is_dir p <;>
            cases !env.git_raises && env.git_returncode_zero &&
              env.git_stdout_contains p <;> simp
  · intro h
    simp [ADWState.validate_worktree, h]

/-- Witness for C6 at a concrete environment with no state record. -/
theorem C6_three_way_validation_witness :
    (ADWState.validate_worktree
        ⟨fun _ => 0, fun _ => none, fun _ => true, fun _ => true,
          false, true, fun _ => true⟩ "task-1").valid =
      (ADWState.check_state_has_path
          ⟨fun _ => 0, fun _ => none, fun _ => true, fun _ => true,
            false, true, fun _ => true⟩ "task-1" &&
        ADWState.check_directory_exists
          ⟨fun _ => 0, fun _ => none, fun _ => true, fun _ => true,
            false, true, fun _ => true⟩ "task-1" &&
        ADWState.check_git_recognizes
          ⟨fun _ => 0, fun _ => none, fun _ => true, fun _ => true,
            false, true, fun _ => true⟩ "task-1") ∧
    (ADWState.validate_worktree
        ⟨fun _ => 0, fun _ => none, fun _ => true, fun _ => true,
          false, true, fun _ => true⟩ "task-1" =
      ⟨false, false, false, false⟩) := by
  have h := C6_three_way_validation
    ⟨fun _ => 0, fun _ => none, fun _ => true, fun _ => true,
      false, true, fun _ => true⟩ "task-1"
  exact ⟨h.1, h.2 rfl⟩

/-! ### C5 — stage retry bound and exponential backoff -/

/-- If every attempt in the index list fails, the retry loop runs them all,
returns failure, and sleeps `2 ^ i` before each attempt `i ≥ 1`. -/
theorem run_attempts_all_fail (outcome : Nat → Bool) (l : List Nat)
    (h : ∀ i ∈ l, outcome i = false) :
    TaskProcessor.run_attempts outcome l =
      (false, l.length, (l.map (fun i => if 0 < i then 2 ^ i else 0)).sum) := by
  induction l with
  | nil => rfl
  | cons i rest ih =>
    have hi : outcome i = false := h i (by simp)
    have hrest := ih (fun j hj => h j (by simp [hj]))
    simp only [TaskProcessor.run_attempts, hi, Bool.false_eq_true, if_false,
      hrest, List.length_cons, List.map_cons, List.sum_cons, Prod.mk.injEq]
    exact ⟨trivial, trivial, Nat.add_comm _ _⟩

/-- The exponential backoff sleeps over attempts `0, …, n` total
`2^1 + ⋯ + 2^n = 2^(n+1) - 2` time units. -/
theorem backoff_sum (n : Nat) :
    ((List.range (n + 1)).map (fun i => if 0 < i then 2 ^ i else 0)).sum =
      2 ^ (n + 1) - 2 := by
  induction n with
  | zero => rfl
  | succ m ih =>
    have h2 : 2 ≤ 2 ^ (m + 1) := by
      have : 2 ^ 1 ≤ 2 ^ (m + 1) := Nat.pow_le_pow_right (by norm_num) (by omega)
      simpa using this
    rw [List.range_succ, List.map_append, List.sum_append, ih]
    have hpow : 2 ^ (m + 1 + 1) = 2 ^ (m + 1) * 2 := by rw [pow_succ]
    simp only [List.map_cons, List.map_nil, List.sum_cons, List.sum_nil]
    rw [if_pos (by omega : 0 < m + 1)]
    omega

/-- C5: a stage whose every attempt fails is attempted exactly
`max_retries + 1` times, ends in failure only after all attempts, sleeps
`2 ^ attempt` before each retry attempt (none before the first), for a total
backoff of `2^(max_retries+1) - 2`; with `max_retries = 2` this is exactly 3
attempts and `2^1 + 2^2` units of wait. -/
theorem C5_retry_bound_and_backoff (outcome : Nat → Bool) (max_retries : Nat)
    (h : ∀ i, outcome i = false) :
    TaskProcessor.execute_stage outcome max_retries =
      (false, max_retries + 1, 2 ^ (max_retries + 1) - 2) ∧
    TaskProcessor.execute_stage outcome 2 = (false, 3, 2 ^ 1 + 2 ^ 2) := by
  have hgen : ∀ n : Nat, TaskProcessor.execute_stage outcome n =
      (false, n + 1, 2 ^ (n + 1) - 2) := by
    intro n
    rw [TaskProcessor.execute_stage,
      run_attempts_all_fail outcome _ (fun i _ => h i), backoff_sum]
    simp [List.length_range]
  exact ⟨hgen max_retries, by rw [hgen 2]; rfl⟩

/-- Witness for C5: the always-failing stage with `max_retries = 2`. -/
theorem C5_retry_bound_and_backoff_witness :
    TaskProcessor.execute_stage (fun _ => false) 2 = (false, 3, 2 ^ 1 + 2 ^ 2) :=
  (C5_retry_bound_and_backoff (fun _ => false) 2 (fun _ => rfl)).2

/-! ### C8 — priority-then-FIFO dispatch order -/

/-- The queue's tuple order is total. -/
theorem entry_le_total (a b : TaskProcessor.QEntry) :
    (TaskProcessor.entry_le a b || TaskProcessor.entry_le b a) = true := by
  simp only [TaskProcessor.entry_le, Bool.or_eq_true, Bool.and_eq_true,
    decide_eq_true_eq]
  omega

/-- The queue's tuple order is transitive. -/
theorem entry_le_trans (a b c : TaskProcessor.QEntry)
    (h1 : TaskProcessor.entry_le a b = true)
    (h2 : TaskProcessor.entry_le b c = true) :
    TaskProcessor.entry_le a c = true := by
  simp only [TaskProcessor.entry_le, Bool.or_eq_true, Bool.and_eq_true,
    decide_eq_true_eq] at h1 h2 ⊢
  omega

/-- In the dequeue order, an entry with a strictly smaller key (higher
priority, or same priority and earlier submission) leaves the queue at a
strictly earlier position. -/
theorem dequeue_order_respects_lt (q : List TaskProcessor.QEntry)
    (a b : TaskProcessor.QEntry) (ha : a ∈ q) (hb : b ∈ q)
    (hab : TaskProcessor.entry_lt a b = true) :
    (TaskProcessor.dequeue_order q).indexOf a <
      (TaskProcessor.dequeue_order q).indexOf b := by
  have hperm : List.Perm (TaskProcessor.dequeue_order q) q :=
    List.mergeSort_perm q TaskProcessor.entry_le
  set l := TaskProcessor.dequeue_order q with hl
  have ha' : a ∈ l := hperm.mem_iff.mpr ha
  have hb' : b ∈ l := hperm.mem_iff.mpr hb
  have hs : l.Pairwise (fun x y => TaskProcessor.entry_le x y = true) := by
    have h := List.sorted_mergeSort
      (fun x y z => entry_le_trans x y z) (fun x y => entry_le_total x y) q
    exact h
  have hia : l.indexOf a < l.length := List.indexOf_lt_length.mpr ha'
  have hib : l.indexOf b < l.length := List.indexOf_lt_length.mpr hb'
  rcases Nat.lt_trichotomy (l.indexOf a) (l.indexOf b) with h | h | h
  · exact h
  · exfalso
    have hab' : a = b := by
      rw [← List.getElem_indexOf hia, ← List.getElem_indexOf hib]
      simp [h]
    rw [hab'] at hab
    simp only [TaskProcessor.entry_lt, Bool.or_eq_true, Bool.and_eq_true,
      decide_eq_true_eq] at hab
    omega
  · exfalso
    have hba := (List.pairwise_iff_getElem.mp hs) _ _ hib hia h
    rw [List.getElem_indexOf hib, List.getElem_indexOf hia] at hba
    simp only [TaskProcessor.entry_le, TaskProcessor.entry_lt, Bool.or_eq_true,
      Bool.and_eq_true, decide_eq_true_eq] at hba hab
    omega

/-- C8: among tasks queued by `queue_task`, a strictly higher-priority task
is dequeued before a lower-priority one regardless of submission order, and
two tasks of equal priority are dequeued in ascending order of their
submission times. -/
theorem C8_priority_then_fifo (q : List TaskProcessor.QEntry)
    (p1 p2 : TaskProcessor.TaskPriority) (t1 t2 : Nat) (id1 id2 : String)
    (h1 : TaskProcessor.queue_entry p1 t1 id1 ∈ q)
    (h2 : TaskProcessor.queue_entry p2 t2 id2 ∈ q)
    (h : p2.value < p1.value ∨ (p1 = p2 ∧ t1 < t2)) :
    (TaskProcessor.dequeue_order q).indexOf (TaskProcessor.queue_entry p1 t1 id1) <
      (TaskProcessor.dequeue_order q).indexOf (TaskProcessor.queue_entry p2 t2 id2) := by
  apply dequeue_order_respects_lt q _ _ h1 h2
  simp only [TaskProcessor.entry_lt, TaskProcessor.queue_entry, Bool.or_eq_true,
    Bool.and_eq_true, decide_eq_true_eq]
  rcases h with h | ⟨rfl, ht⟩
  · left; omega
  · right; exact ⟨rfl, ht⟩

/-- Witness for C8: a low-priority task queued first is nevertheless dequeued
after a high-priority task queued later. -/
theorem C8_priority_then_fifo_witness :
    (TaskProcessor.dequeue_order
        (TaskProcessor.queue_task
          (TaskProcessor.queue_task [] TaskProcessor.TaskPriority.low 5 "a")
          TaskProcessor.TaskPriority.high 7 "b")).indexOf
        (TaskProcessor.queue_entry TaskProcessor.TaskPriority.high 7 "b") <
      (TaskProcessor.dequeue_order
        (TaskProcessor.queue_task
          (TaskProcessor.queue_task [] TaskProcessor.TaskPriority.low 5 "a")
          TaskProcessor.TaskPriority.high 7 "b")).indexOf
        (TaskProcessor.queue_entry TaskProcessor.TaskPriority.low 5 "a") :=
  C8_priority_then_fifo _ TaskProcessor.TaskPriority.high
    TaskProcessor.TaskPriority.low 7 5 "b" "a" (by decide) (by decide)
    (Or.inl (by decide))

/-! ### C9 — trigger deduplication in the watcher loop -/

/-- One step of the watcher either leaves the submissions for a name `n`
untouched and does not change whether `n` is marked processed, or it is the
step that marks `n` processed, in which case it submits at most one entry
for `n`. -/
theorem monitor_step_cases (st : Orchestrator.MonitorState)
    (t : Orchestrator.TriggerObs) (n : String) :
    (((Orchestrator.monitor_step st t).submissions.filter
          fun e => decide (e.1 = n)) =
        (st.submissions.filter fun e => decide (e.1 = n)) ∧
      (n ∈ (Orchestrator.monitor_step st t).processed ↔ n ∈ st.processed)) ∨
    (t.name = n ∧ n ∉ st.processed ∧
      n ∈ (Orchestrator.monitor_step st t).processed ∧
      ((Orchestrator.monitor_step st t).submissions.filter
          fun e => decide (e.1 = n)).length ≤
        (st.submissions.filter fun e => decide (e.1 = n)).length + 1) := by
  by_cases h1 : t.name ∈ st.processed
  · left
    constructor <;> simp [Orchestrator.monitor_step, h1]
  · by_cases h2 : t.trigger_parse_ok = true
    · by_cases h3 : t.task_file_exists = true
      · cases hr : t.task_read with
        | empty =>
          by_cases htn : t.name = n
          · subst htn
            right
            refine ⟨rfl, h1, ?_, ?_⟩ <;> simp [Orchestrator.monitor_step, h1, h2, h3, hr]
          · have hns : n ≠ t.name := fun e => htn e.symm
            left
            constructor <;> simp [Orchestrator.monitor_step, h1, h2, h3, hr, hns]
        | invalid =>
          left
          constructor <;> simp [Orchestrator.monitor_step, h1, h2, h3, hr]
        | valid d =>
          by_cases htn : t.name = n
          · subst htn
            right
            refine ⟨rfl, h1, ?_, ?_⟩ <;>
              simp [Orchestrator.monitor_step, h1, h2, h3, hr, List.filter_append]
          · have hns : n ≠ t.name := fun e => htn e.symm
            left
            constructor <;>
              simp [Orchestrator.monitor_step, h1, h2, h3, hr, List.filter_append,
                htn, hns]
      · left
        constructor <;> simp [Orchestrator.monitor_step, h1, h2, h3]
    · left
      constructor <;> simp [Orchestrator.monitor_step, h1, h2]

/-- Once a trigger name is marked processed, the rest of the run submits
nothing further for it. -/
theorem monitor_fold_no_new (obs : List Orchestrator.TriggerObs)
    (st : Orchestrator.MonitorState) (n : String) (h : n ∈ st.processed) :
    (((obs.foldl Orchestrator.monitor_step st).submissions.filter
        fun e => decide (e.1 = n))).length =
      ((st.submissions.filter fun e => decide (e.1 = n))).length := by
  induction obs generalizing st with
  | nil => rfl
  | cons t rest ih =>
    rw [List.foldl_cons]
    rcases monitor_step_cases st t n with ⟨hsub, hproc⟩ | ⟨_, hnm, _, _⟩
    · rw [ih _ (hproc.mpr h), hsub]
    · exact absurd h hnm

/-- Across the whole run, the submissions for a name exceed those already
made by at most one, and by none when the name is already processed. -/
theorem monitor_fold_bound (obs : List Orchestrator.TriggerObs)
    (st : Orchestrator.MonitorState) (n : String) :
    (((obs.foldl Orchestrator.monitor_step st).submissions.filter
        fun e => decide (e.1 = n))).length ≤
      ((st.submissions.filter fun e => decide (e.1 = n))).length +
        (if n ∈ st.processed then 0 else 1) := by
  induction obs generalizing st with
  | nil =>
    simp only [List.foldl_nil]
    split <;> omega
  | cons t rest ih =>
    rw [List.foldl_cons]
    rcases monitor_step_cases st t n with ⟨hsub, hproc⟩ | ⟨_, hnm, hmem, hlen⟩
    · have := ih (Orchestrator.monitor_step st t)
      rw [hsub] at this
      rcases Decidable.em (n ∈ st.processed) with hn | hn
      · simpa [hn, hproc.mpr hn] using this
      · have hn' : n ∉ (Orchestrator.monitor_step st t).processed :=
          fun h => hn (hproc.mp h)
        simpa [hn, hn'] using this
    · rw [monitor_fold_no_new rest _ n hmem]
      simpa [hnm] using hlen

/-- C9: within one watcher process, each trigger file name causes at most one
task submission across every polling iteration, however often the trigger is
observed. -/
theorem C9_trigger_dedup (obs : List Orchestrator.TriggerObs) (n : String) :
    (((Orchestrator.monitor_run obs).submissions.filter
        fun e => decide (e.1 = n))).length ≤ 1 := by
  have h := monitor_fold_bound obs ⟨[], []⟩ n
  simpa [Orchestrator.monitor_run] using h

/-! ### C1 — no double booking of port pairs -/

/-- Sixteen distinct candidate task ids; the allocator has only 15 slots per
range, so any hash function collides on some two of them. -/
def port_pool : Finset String :=
  {"a", "b", "c", "d", "e", "f", "g", "h", "i", "j", "k", "l", "m", "n", "o", "p"}

/-- The candidate pool has sixteen elements. -/
theorem port_pool_card : port_pool.card = 16 := by decide

/-- Pigeonhole: whatever the per-process hash function is, two distinct ids
among the sixteen candidates receive the same port pair, so a live set of
just those two tasks (N = 2 ≤ 15) is double-booked. -/
theorem allocate_ports_collision_unavoidable (env : ADWEnv) :
    ∃ a ∈ port_pool, ∃ b ∈ port_pool, a ≠ b ∧
      ADWState.allocate_ports env a = ADWState.allocate_ports env b := by
  have hc : (Finset.range 15).card < port_pool.card := by
    rw [port_pool_card, Finset.card_range]
    omega
  have hmaps : ∀ a ∈ port_pool, env.pyHash a % 15 ∈ Finset.range 15 := by
    intro a _
    exact Finset.mem_range.mpr (Nat.mod_lt _ (by norm_num))
  obtain ⟨a, ha, b, hb, hne, heq⟩ :=
    Finset.exists_ne_map_eq_of_card_lt_of_maps_to hc hmaps
  exact ⟨a, ha, b, hb, hne, by simp [ADWState.allocate_ports, heq]⟩

/-- C1 counterexample: it is not the case that any two distinct concurrently
live task ids get distinct port pairs — hash-modulo allocation admits
collisions (and `allocate_ports` never probes the live-state set to avoid
them). -/
theorem C1_no_double_booking_counterexample :
    ¬ (∀ (env : ADWEnv) (a b : String), a ≠ b →
        ADWState.allocate_ports env a ≠ ADWState.allocate_ports env b) := by
  intro h
  exact h
    ⟨fun _ => 0, fun _ => none, fun _ => false, fun _ => false,
      false, false, fun _ => false⟩
    "a" "b" (by decide) rfl

/-- C1 amended: the port pairs of two concurrently live tasks are distinct
exactly when their ids hash to distinct residues modulo the range width 15;
pairwise distinctness of all allocated pairs holds only under that
hash-distinctness side condition, not for every set of at most 15 live
tasks. -/
theorem C1_no_double_booking_amended (env : ADWEnv) (a b : String)
    (hne : env.pyHash a % 15 ≠ env.pyHash b % 15) :
    ADWState.allocate_ports env a ≠ ADWState.allocate_ports env b := by
  simp only [ADWState.allocate_ports, ne_eq, Prod.mk.injEq, not_and]
  intro h1
  omega

/-- Witness for the amended C1: ids whose hashes differ mod 15 get distinct
pairs. -/
theorem C1_no_double_booking_amended_witness :
    ((⟨fun s => s.length, fun _ => none, fun _ => false, fun _ => false,
        false, false, fun _ => false⟩ : ADWEnv).pyHash "x" % 15 ≠
      (⟨fun s => s.length, fun _ => none, fun _ => false, fun _ => false,
        false, false, fun _ => false⟩ : ADWEnv).pyHash "xy" % 15) ∧
    ADWState.allocate_ports
        ⟨fun s => s.length, fun _ => none, fun _ => false, fun _ => false,
          false, false, fun _ => false⟩ "x" ≠
      ADWState.allocate_ports
        ⟨fun s => s.length, fun _ => none, fun _ => false, fun _ => false,
          false, false, fun _ => false⟩ "xy" :=
  ⟨by decide,
    C1_no_double_booking_amended
      ⟨fun s => s.length, fun _ => none, fun _ => false, fun _ => false,
        false, false, fun _ => false⟩ "x" "xy" (by decide)⟩

/-! ### C7 — deterministic, idempotent, restart-stable allocation -/

/-- C7 counterexample: two processes with identical persisted live states
but different salted builtin hash functions (CPython salts `hash(str)` per
process unless PYTHONHASHSEED is pinned) allocate different pairs to the
same task id, so the mapping is not stable across process restarts. -/
theorem C7_deterministic_allocation_counterexample :
    ADWState.allocate_ports
        ⟨fun _ => 0, fun _ => none, fun _ => false, fun _ => false,
          false, false, fun _ => false⟩ "a" ≠
      ADWState.allocate_ports
        ⟨fun _ => 1, fun _ => none, fun _ => false, fun _ => false,
          false, false, fun _ => false⟩ "a" := by
  decide

/-- C7 amended: with the per-process hash function fixed, `allocate_ports`
is deterministic and idempotent — the pair depends only on the id's hash
reduced modulo 15 and added to the fixed bases 9100 and 9200, and not on the
live task set — so repeated calls in one process (or across restarts with
the same hash seed) return the same pair. -/
theorem C7_deterministic_allocation_amended (e1 e2 : ADWEnv) (adw_id : String)
    (h : e1.pyHash = e2.pyHash) :
    ADWState.allocate_ports e1 adw_id = ADWState.allocate_ports e2 adw_id ∧
    ADWState.allocate_ports e1 adw_id =
      (9100 + e1.pyHash adw_id % 15, 9200 + e1.pyHash adw_id % 15) := by
  simp [ADWState.allocate_ports, h]

/-- Witness for the amended C7: two environments with the same hash function
but different persisted states allocate identically. -/
theorem C7_deterministic_allocation_amended_witness :
    ADWState.allocate_ports
        ⟨fun _ => 3, fun _ => none, fun _ => false, fun _ => false,
          false, false, fun _ => false⟩ "t1" =
      ADWState.allocate_ports
        ⟨fun _ => 3, fun _ => some { adw_id := "t1" }, fun _ => true,
          fun _ => true, false, true, fun _ => true⟩ "t1" ∧
    ADWState.allocate_ports
        ⟨fun _ => 3, fun _ => none, fun _ => false, fun _ => false,
          false, false, fun _ => false⟩ "t1" = (9100 + 3 % 15, 9200 + 3 % 15) :=
  C7_deterministic_allocation_amended
    ⟨fun _ => 3, fun _ => none, fun _ => false, fun _ => false,
      false, false, fun _ => false⟩
    ⟨fun _ => 3, fun _ => some { adw_id := "t1" }, fun _ => true,
      fun _ => true, false, true, fun _ => true⟩ "t1" rfl

/-! ### C2 — atomicity of `save_state` -/

/-- C2 counterexample: `save_state` performs no rename at all — it writes the
record in place — and a crash one byte into the write leaves the target
holding a strict prefix of the new record: neither the previous nor the new
complete record survives, so `load` would see corrupt data. -/
theorem C2_atomic_persistence_counterexample :
    ((save_state_ops "t1" "NEW-RECORD-PAYLOAD".toList).all
        fun op => !op.isRenameOp) = true ∧
    apply_ops_crash
        (fun q => if q = state_file "t1"
          then some "OLD-RECORD-PAYLOAD".toList else none)
        (save_state_ops "t1" "NEW-RECORD-PAYLOAD".toList) 1 1
        (state_file "t1") ≠ some "OLD-RECORD-PAYLOAD".toList ∧
    apply_ops_crash
        (fun q => if q = state_file "t1"
          then some "OLD-RECORD-PAYLOAD".toList else none)
        (save_state_ops "t1" "NEW-RECORD-PAYLOAD".toList) 1 1
        (state_file "t1") ≠ some "NEW-RECORD-PAYLOAD".toList := by
  refine ⟨?_, ?_, ?_⟩ <;> decide

/-- C2 amended: `save_state` ensures the task directory and then writes the
serialized record directly to `state.json` — no temporary file, no rename.
A completed save stores the full record, and a crash `m` bytes into the
write leaves the target truncated to the first `m` bytes, which differs from
the complete new record whenever `m` is short of its length. -/
theorem C2_atomic_persistence_amended (adw_id : String) (payload : List Char)
    (fs : FileSys) (m : Nat) (hm : m < payload.length) :
    (∀ op ∈ save_state_ops adw_id payload, op.isRenameOp = false) ∧
    apply_ops fs (save_state_ops adw_id payload) (state_file adw_id) =
      some payload ∧
    apply_ops_crash fs (save_state_ops adw_id payload) 1 m (state_file adw_id) =
      some (payload.take m) ∧
    payload.take m ≠ payload := by
  refine ⟨?_, ?_, ?_, ?_⟩
  · intro op hop
    simp only [save_state_ops, List.mem_cons, List.mem_singleton,
      List.not_mem_nil, or_false] at hop
    rcases hop with rfl | rfl <;> rfl
  · simp [save_state_ops, apply_ops, apply_op]
  · simp [save_state_ops, apply_ops_crash, apply_ops, apply_op]
  · intro h
    have hlen := congrArg List.length h
    rw [List.length_take] at hlen
    omega

/-- Witness for the amended C2: a concrete interrupted save leaves a strict
prefix of the new record. -/
theorem C2_atomic_persistence_amended_witness :
    1 < ("NEW-RECORD-PAYLOAD".toList).length ∧
    (apply_ops_crash (fun _ => none)
        (save_state_ops "t1" "NEW-RECORD-PAYLOAD".toList) 1 1
        (state_file "t1") = some ("NEW-RECORD-PAYLOAD".toList.take 1) ∧
      "NEW-RECORD-PAYLOAD".toList.take 1 ≠ "NEW-RECORD-PAYLOAD".toList) :=
  ⟨by decide,
    (C2_atomic_persistence_amended "t1" "NEW-RECORD-PAYLOAD".toList
        (fun _ => none) 1 (by decide)).2.2.1,
    (C2_atomic_persistence_amended "t1" "NEW-RECORD-PAYLOAD".toList
        (fun _ => none) 1 (by decide)).2.2.2⟩

/-! ### C3 — terminal completeness -/

/-- The record a fresh submission starts from (`initialize_state` with the
default stage list of `__post_init__`). -/
def sample_state : StateData :=
  { adw_id := "t1", title := "T", description := "D" }

/-- C3 counterexample: `update_status` — one of the store's mutators, and the
call `process_task` issues after its stage loop — sets `completed` on a
record none of whose declared stages has completed. -/
theorem C3_terminal_completeness_counterexample :
    (StateManager.update_status sample_state WorkflowStatus.completed
        "" none "now").workflow_status = WorkflowStatus.completed.value ∧
    "plan" ∈ (StateManager.update_status sample_state WorkflowStatus.completed
        "" none "now").stages ∧
    "plan" ∉ (StateManager.update_status sample_state WorkflowStatus.completed
        "" none "now").completed_stages := by
  refine ⟨rfl, by decide, by decide⟩

/-- `complete_stage` leaves `completed_stages` at the appended (or unchanged)
list, independent of whether the completion check fires. -/
theorem complete_stage_completed_stages (s : StateData) (stage now : String) :
    (StateManager.complete_stage s stage now).completed_stages =
      if stage ∈ s.completed_stages then s.completed_stages
      else s.completed_stages ++ [stage] := by
  simp only [StateManager.complete_stage, StateManager.save_state]
  split <;> split <;> rfl

/-- `complete_stage` also leaves `stages` untouched. -/
theorem complete_stage_stages (s : StateData) (stage now : String) :
    (StateManager.complete_stage s stage now).stages = s.stages := by
  simp only [StateManager.complete_stage, StateManager.save_state]
  split <;> split <;> rfl

/-- C3 amended: when `completed` is established by `complete_stage` — the
one mutator that checks the stage counts — on a record whose completed
stages are distinct and drawn from the duplicate-free declared stage list,
the completed set equals the declared stage list exactly (every declared
stage present exactly once).  Reaching `completed` through `update_status`
(as `process_task` does after its loop) carries no such guarantee. -/
theorem C3_terminal_completeness_amended (s : StateData) (stage now : String)
    (hnd : s.stages.Nodup) (hsub : s.completed_stages ⊆ s.stages)
    (hcnd : s.completed_stages.Nodup) (hst : stage ∈ s.stages)
    (hfull : (StateManager.complete_stage s stage now).completed_stages.length =
      s.stages.length) :
    (StateManager.complete_stage s stage now).workflow_status =
      WorkflowStatus.completed.value ∧
    (StateManager.complete_stage s stage now).completed_stages.toFinset =
      s.stages.toFinset ∧
    (StateManager.complete_stage s stage now).completed_stages.Nodup := by
  have hc := complete_stage_completed_stages s stage now
  set c := if stage ∈ s.completed_stages then s.completed_stages
    else s.completed_stages ++ [stage] with hcdef
  have hcsub : c ⊆ s.stages := by
    rw [hcdef]
    split
    · exact hsub
    · intro x hx
      rcases List.mem_append.mp hx with hx | hx
      · exact hsub hx
      · rw [List.mem_singleton.mp hx]
        exact hst
  have hcnodup : c.Nodup := by
    rw [hcdef]
    split
    · exact hcnd
    next hnm => simp [List.nodup_append, hcnd, hnm]
  have hlen : c.length = s.stages.length := by
    rw [← hc]
    exact hfull
  have hstatus : (StateManager.complete_stage s stage now).workflow_status =
      WorkflowStatus.completed.value := by
    simp only [StateManager.complete_stage, StateManager.save_state]
    rw [if_pos]
    exact hlen
  have hfsub : c.toFinset ⊆ s.stages.toFinset := by
    intro x hx
    rw [List.mem_toFinset] at hx ⊢
    exact hcsub hx
  have hcard1 : c.toFinset.card = c.length := by
    rw [List.card_toFinset, List.dedup_eq_self.mpr hcnodup]
  have hcard2 : s.stages.toFinset.card = s.stages.length := by
    rw [List.card_toFinset, List.dedup_eq_self.mpr hnd]
  have hfeq : c.toFinset = s.stages.toFinset := by
    apply Finset.eq_of_subset_of_card_le hfsub
    rw [hcard1, hcard2, hlen]
  refine ⟨hstatus, ?_, ?_⟩
  · rw [hc]
    exact hfeq
  · rw [hc]
    exact hcnodup

/-- Witness for the amended C3: completing the last outstanding stage of
`["plan", "implement"]` flips the record to `completed` with the completed
set equal to the declared stages. -/
theorem C3_terminal_completeness_amended_witness :
    (StateManager.complete_stage
        { sample_state with completed_stages := ["plan"] } "implement"
        "now").workflow_status = WorkflowStatus.completed.value ∧
    (StateManager.complete_stage
        { sample_state with completed_stages := ["plan"] } "implement"
        "now").completed_stages.toFinset =
      ({ sample_state with
          completed_stages := ["plan"] } : StateData).stages.toFinset ∧
    (StateManager.complete_stage
        { sample_state with completed_stages := ["plan"] } "implement"
        "now").completed_stages.Nodup :=
  C3_terminal_completeness_amended
    { sample_state with completed_stages := ["plan"] } "implement" "now"
    (by decide) (by decide) (by decide) (by decide) (by decide)

/-! ### C4 — failed-status invariant -/

/-- C4 counterexample: `update_status` can set `failed` while leaving
`error_message` unset and `failed_stages` empty (so the current stage is not
recorded as failed) — the claimed invariant does not hold over all of the
store's mutators. -/
theorem C4_failed_invariant_counterexample :
    (StateManager.update_status sample_state WorkflowStatus.failed
        "" none "now").workflow_status = WorkflowStatus.failed.value ∧
    (StateManager.update_status sample_state WorkflowStatus.failed
        "" none "now").error_message = none ∧
    (StateManager.update_status sample_state WorkflowStatus.failed
        "" none "now").current_stage ∉
      (StateManager.update_status sample_state WorkflowStatus.failed
        "" none "now").failed_stages := by
  refine ⟨rfl, rfl, by decide⟩

/-- C4 amended: the invariant holds for the path the processor actually
takes — `fail_stage` applied to the record's current stage (as
`process_task` does after `update_stage` made the failing stage current)
yields `failed` status, membership of the current stage in `failed_stages`,
and a set error message; `update_status` alone can set `failed` without
any of this. -/
theorem C4_failed_invariant_amended (s : StateData) (msg now : String) :
    (StateManager.fail_stage s s.current_stage msg now).workflow_status =
      WorkflowStatus.failed.value ∧
    (StateManager.fail_stage s s.current_stage msg now).current_stage ∈
      (StateManager.fail_stage s s.current_stage msg now).failed_stages ∧
    (StateManager.fail_stage s s.current_stage msg now).error_message =
      some msg := by
  refine ⟨rfl, ?_, rfl⟩
  by_cases h : s.current_stage ∈ s.failed_stages
  · simp [StateManager.fail_stage, StateManager.save_state, h]
  · simp [StateManager.fail_stage, StateManager.save_state, h]

end ACE
